import Mathlib

/-!
# Verification of the n8n-nodes-oracle-database orchestration layer

A shallow embedding, in Lean 4, of the credential normalizer, the
connection-mode resolver, the AQ (Advanced Queuing) helper, the
transaction wrapper, the node facades and the vector-store parameter
validation of the `n8n-nodes-oracle-database` repository, together with
theorems settling the behavioural claims about them.

JavaScript runtime values that flow through the untyped credential
records are modelled by the inductive `JSValue`; `String(x)` coercion and
JS truthiness are modelled by `jsToString` and `jsTruthy`.
-/

/-- A JavaScript runtime value as it can appear in an untyped credential
record field.  A missing property reads as `undef` (JS `undefined`). -/
inductive JSValue where
  | undef : JSValue
  | null : JSValue
  | bool (b : Bool) : JSValue
  | num (n : Int) : JSValue
  | str (s : String) : JSValue
deriving DecidableEq, Repr

namespace JSValue

/-- JS `String(x)` coercion. -/
def jsToString : JSValue → String
  | .undef => "undefined"
  | .null => "null"
  | .bool true => "true"
  | .bool false => "false"
  | .num n => toString n
  | .str s => s

/-- JS truthiness of a value (`if (x)`). -/
def jsTruthy : JSValue → Bool
  | .undef => false
  | .null => false
  | .bool b => b
  | .num n => n != 0
  | .str s => !s.isEmpty

/-- Whether `typeof x === 'string'`. -/
def isStr : JSValue → Bool
  | .str _ => true
  | _ => false

end JSValue

/-- The shape of an Oracle credential record at the JS level: each field of
the `OracleCredentials` interface, as an arbitrary runtime value (a missing
field is `JSValue.undef`). -/
structure JSCreds where
  user : JSValue
  password : JSValue
  connectionString : JSValue
  thinMode : JSValue
  libDir : JSValue
  configDir : JSValue
  errorUrl : JSValue
deriving DecidableEq, Repr

/-- A raw record with every field missing. -/
def emptyRawCreds : JSCreds :=
  ⟨.undef, .undef, .undef, .undef, .undef, .undef, .undef⟩

/-- Connection mode, `OracleConnectionConfig['mode']`. -/
inductive OracleMode where
  | thin : OracleMode
  | thick : OracleMode
deriving DecidableEq, Repr

/-- `OracleCredentialsValidation` from
`src/nodes/Oracle/interfaces/database.interface.ts`. -/
structure OracleCredentialsValidation where
  isValid : Bool
  errorMessage : Option String
  mode : OracleMode
deriving DecidableEq, Repr

/-- The runtime type guard `isOracleCredentials`
(`database.interface.ts`): the record is an object and `user`, `password`
and `connectionString` are strings. -/
def isOracleCredentials (c : JSCreds) : Bool :=
  c.user.isStr && c.password.isStr && c.connectionString.isStr

/-- `OracleCredentialsUtils.validateCredentials`
(`database.interface.ts`). -/
def validateCredentials (c : JSCreds) : OracleCredentialsValidation :=
  if !isOracleCredentials c then
    { isValid := false
      errorMessage := some "Credenciais inválidas: campos obrigatórios ausentes"
      mode := .thin }
  else if c.thinMode = .bool false then
    if !c.libDir.jsTruthy then
      { isValid := false
        errorMessage := some "libDir é obrigatório para modo thick"
        mode := .thick }
    else
      { isValid := true, errorMessage := none, mode := .thick }
  else
    { isValid := true, errorMessage := none, mode := .thin }

/-- `OracleConnectionConfig` (`database.interface.ts`): the config derived
from credentials; thick-mode options are passed through as JS values. -/
structure OracleConnectionConfig where
  mode : OracleMode
  libDir : JSValue
  configDir : JSValue
  errorUrl : JSValue
deriving DecidableEq, Repr

/-- `OracleCredentialsUtils.createConnectionConfig`
(`database.interface.ts`); the `throw` is modelled by `Except.error`. -/
def createConnectionConfig (c : JSCreds) : Except String OracleConnectionConfig :=
  if c.thinMode = .bool false then
    if !c.libDir.jsTruthy then
      .error "libDir é obrigatório para modo thick"
    else
      .ok { mode := .thick, libDir := c.libDir, configDir := c.configDir,
            errorUrl := c.errorUrl }
  else
    .ok { mode := .thin, libDir := .undef, configDir := .undef, errorUrl := .undef }

/-- The credential object literal built by `prepareOracleCredentials`
(`src/nodes/Oracle/OracleDatabaseAdvanced.node.ts`, lines 160-168): each
required field coerced with JS `String(..)`, `thinMode` as
`raw.thinMode !== false`, optional fields passed through when truthy and
`undefined` otherwise. -/
def coerceRawCredentials (raw : JSCreds) : JSCreds :=
  { user := .str raw.user.jsToString
    password := .str raw.password.jsToString
    connectionString := .str raw.connectionString.jsToString
    thinMode := .bool (raw.thinMode != .bool false)
    libDir := if raw.libDir.jsTruthy then .str raw.libDir.jsToString else .undef
    configDir := if raw.configDir.jsTruthy then .str raw.configDir.jsToString else .undef
    errorUrl := if raw.errorUrl.jsTruthy then .str raw.errorUrl.jsToString else .undef }

/-- `prepareOracleCredentials` from
`src/nodes/Oracle/OracleDatabaseAdvanced.node.ts` (lines 159-177): build
the coerced record, run `validateCredentials` on it and throw when it
reports invalid. -/
def prepareOracleCredentials (raw : JSCreds) : Except String JSCreds :=
  let creds := coerceRawCredentials raw
  let validation := validateCredentials creds
  if validation.isValid then .ok creds
  else .error ("Credenciais inválidas: " ++ validation.errorMessage.getD "undefined")

/-- `OracleCredentialsUtils.sanitizeForLogging` returns an object with
exactly the five non-sensitive fields; this structure is its shape. -/
structure SanitizedCreds where
  user : JSValue
  connectionString : JSValue
  thinMode : JSValue
  libDir : JSValue
  configDir : JSValue
deriving DecidableEq, Repr

/-- `OracleCredentialsUtils.sanitizeForLogging` (`database.interface.ts`):
copies `user`, `connectionString`, `thinMode`, `libDir`, `configDir`;
`password` and `errorUrl` are omitted. -/
def sanitizeForLogging (c : JSCreds) : SanitizedCreds :=
  { user := c.user
    connectionString := c.connectionString
    thinMode := c.thinMode
    libDir := c.libDir
    configDir := c.configDir }

/-! ## Helper lemmas on string coercion -/

theorem toDigitsCore_ne_nil_of_acc (b : Nat) :
    ∀ (f n : Nat) (l : List Char), l ≠ [] → Nat.toDigitsCore b f n l ≠ [] := by
  intro f
  induction f with
  | zero => intro n l hl; simpa [Nat.toDigitsCore] using hl
  | succ f ih =>
    intro n l hl
    simp only [Nat.toDigitsCore]
    split
    · simp
    · exact ih _ _ (by simp)

theorem natRepr_ne_empty (n : Nat) : Nat.repr n ≠ "" := by
  unfold Nat.repr
  intro h
  have hnil : Nat.toDigits 10 n = [] := by
    have := congrArg String.data h
    simpa [List.asString] using this
  revert hnil
  unfold Nat.toDigits
  simp only [Nat.toDigitsCore]
  split
  · simp
  · exact toDigitsCore_ne_nil_of_acc 10 _ _ _ (by simp)

theorem intToString_ne_empty (n : Int) : toString n ≠ "" := by
  cases n with
  | ofNat m =>
    show Int.repr (Int.ofNat m) ≠ ""
    simp only [Int.repr]
    exact natRepr_ne_empty m
  | negSucc m =>
    show Int.repr (Int.negSucc m) ≠ ""
    simp only [Int.repr]
    intro h
    have := congrArg String.data h
    simp [String.data_append] at this

/-- `String(x)` of a truthy value is never the empty string. -/
theorem jsToString_ne_empty_of_truthy (v : JSValue) (h : v.jsTruthy = true) :
    v.jsToString ≠ "" := by
  cases v with
  | undef => simp [JSValue.jsTruthy] at h
  | null => simp [JSValue.jsTruthy] at h
  | bool b =>
    cases b with
    | false => simp [JSValue.jsTruthy] at h
    | true => simp [JSValue.jsToString]
  | num n => exact intToString_ne_empty n
  | str s =>
    simp only [JSValue.jsTruthy, Bool.not_eq_true'] at h
    simp only [JSValue.jsToString]
    intro hs
    rw [hs] at h
    exact absurd h (by decide)

/-- The `libDir ? String(libDir) : undefined` pass-through in
`prepareOracleCredentials` preserves truthiness. -/
theorem coerced_jsTruthy (v : JSValue) :
    (if v.jsTruthy then JSValue.str v.jsToString else .undef).jsTruthy = v.jsTruthy := by
  by_cases h : v.jsTruthy = true
  · rw [if_pos h, h]
    show (!v.jsToString.isEmpty) = true
    have hne := jsToString_ne_empty_of_truthy v h
    cases hemp : v.jsToString.isEmpty with
    | true => exact absurd ((String.isEmpty_iff _).mp hemp) hne
    | false => simp [hemp]
  · simp only [Bool.not_eq_true] at h
    rw [if_neg (by simp [h]), h]
    rfl

/-! ## Claims C1, C2, C7: credential normalization and sanitization -/

/-- C1 (counterexample): the claim states that a raw credential record
missing `user`, `password` and `connectionString` makes normalization
(`prepareOracleCredentials` followed by `validateCredentials`) fail with an
invalid-credentials error.  On the record with every field missing the
pipeline instead succeeds: JS `String(undefined)` coerces each missing
field to the string `"undefined"`, which passes the `typeof === 'string'`
checks of `isOracleCredentials`. -/
theorem c1_missing_fields_counterexample :
    prepareOracleCredentials emptyRawCreds =
      .ok ⟨.str "undefined", .str "undefined", .str "undefined",
           .bool true, .undef, .undef, .undef⟩ := by
  rfl

/-- C1 (amended): normalization by `prepareOracleCredentials` (which runs
`validateCredentials` on the coerced record) fails exactly when
`thinMode === false` and `libDir` is not truthy; missing `user`,
`password` or `connectionString` never cause a failure, because the
`String(..)` coercion turns them into (non-empty) strings before the
type-guard check. -/
theorem c1_amended_prepare_ok_iff (raw : JSCreds) :
    (prepareOracleCredentials raw).isOk = true ↔
      ¬(raw.thinMode = .bool false ∧ raw.libDir.jsTruthy = false) := by
  have hisOk : (prepareOracleCredentials raw).isOk =
      (validateCredentials (coerceRawCredentials raw)).isValid := by
    unfold prepareOracleCredentials
    cases h : (validateCredentials (coerceRawCredentials raw)).isValid with
    | true => simp [h, Except.isOk, Except.toBool]
    | false => simp [h, Except.isOk, Except.toBool]
  have hguard : isOracleCredentials (coerceRawCredentials raw) = true := rfl
  have hlib : (coerceRawCredentials raw).libDir.jsTruthy = raw.libDir.jsTruthy :=
    coerced_jsTruthy raw.libDir
  have hthin : ((coerceRawCredentials raw).thinMode = JSValue.bool false) ↔
      raw.thinMode = .bool false := by
    show (JSValue.bool (raw.thinMode != .bool false) = .bool false) ↔ _
    simp [bne]
  rw [hisOk]
  unfold validateCredentials
  rw [hguard]
  by_cases ht : raw.thinMode = .bool false
  · rw [if_neg (by simp), if_pos (hthin.mpr ht), hlib]
    by_cases hl : raw.libDir.jsTruthy = true
    · rw [if_neg (by simp [hl])]
      simp [ht, hl]
    · simp only [Bool.not_eq_true] at hl
      rw [if_pos (by simp [hl])]
      simp [ht, hl]
  · rw [if_neg (by simp), if_neg (fun h => ht (hthin.mp h))]
    simp [ht]

/-- C2: for any well-typed credential record (the three required fields
are strings, as the `OracleCredentials` interface declares):
with `thinMode === false` and a non-truthy `libDir`, `validateCredentials`
reports invalid and `createConnectionConfig` throws; with
`thinMode === false` and a truthy (non-empty) `libDir`, both succeed and
the derived mode is `thick`; in every other case the derived mode is
`thin`. -/
theorem c2_thick_mode_requires_libdir (c : JSCreds)
    (hu : c.user.isStr = true) (hp : c.password.isStr = true)
    (hcs : c.connectionString.isStr = true) :
    (c.thinMode = .bool false → c.libDir.jsTruthy = false →
      (validateCredentials c).isValid = false ∧
      createConnectionConfig c = .error "libDir é obrigatório para modo thick") ∧
    (c.thinMode = .bool false → c.libDir.jsTruthy = true →
      (validateCredentials c).isValid = true ∧ (validateCredentials c).mode = .thick ∧
      ∃ cfg, createConnectionConfig c = .ok cfg ∧ cfg.mode = .thick) ∧
    (c.thinMode ≠ .bool false →
      (validateCredentials c).isValid = true ∧ (validateCredentials c).mode = .thin ∧
      ∃ cfg, createConnectionConfig c = .ok cfg ∧ cfg.mode = .thin) := by
  refine ⟨fun ht hl => ?_, fun ht hl => ?_, fun ht => ?_⟩
  · simp [validateCredentials, createConnectionConfig, isOracleCredentials,
      hu, hp, hcs, ht, hl]
  · simp [validateCredentials, createConnectionConfig, isOracleCredentials,
      hu, hp, hcs, ht, hl]
  · simp [validateCredentials, createConnectionConfig, isOracleCredentials,
      hu, hp, hcs, ht]

/-- C2 (witness): the theorem applied to the concrete thick-mode
credential `{user: "hr", password: "x", connectionString:
"localhost:1521/XEPDB1", thinMode: false, libDir: "/opt/oracle"}`. -/
theorem c2_thick_mode_requires_libdir_witness :
    (validateCredentials ⟨.str "hr", .str "x", .str "localhost:1521/XEPDB1",
      .bool false, .str "/opt/oracle", .undef, .undef⟩).isValid = true ∧
    (validateCredentials ⟨.str "hr", .str "x", .str "localhost:1521/XEPDB1",
      .bool false, .str "/opt/oracle", .undef, .undef⟩).mode = .thick := by
  have h := (c2_thick_mode_requires_libdir
    ⟨.str "hr", .str "x", .str "localhost:1521/XEPDB1",
      .bool false, .str "/opt/oracle", .undef, .undef⟩
    rfl rfl rfl).2.1 rfl (by decide)
  exact ⟨h.1, h.2.1⟩

/-- C7: `sanitizeForLogging` keeps exactly the fields `user`,
`connectionString`, `thinMode`, `libDir`, `configDir` (its codomain
`SanitizedCreds` has no `password` or `errorUrl` field), so two
credential records that differ only in `password` or `errorUrl` have
identical sanitized outputs (safe-logging noninterference). -/
theorem c7_sanitize_noninterference :
    (∀ c : JSCreds, sanitizeForLogging c =
      ⟨c.user, c.connectionString, c.thinMode, c.libDir, c.configDir⟩) ∧
    (∀ (u cs tm ld cd p₁ p₂ e₁ e₂ : JSValue),
      sanitizeForLogging ⟨u, p₁, cs, tm, ld, cd, e₁⟩ =
        sanitizeForLogging ⟨u, p₂, cs, tm, ld, cd, e₂⟩) :=
  ⟨fun _ => rfl, fun _ _ _ _ _ _ _ _ _ => rfl⟩

/-! ## Claim C3: connection-mode auto-detection
(`src/nodes/Oracle/core/connection.ts`) -/

/-- A snapshot of the environment variables consulted by
`OracleConnection.detectBestMode`: `process.env.X` is either a string or
`undefined` (`none`). -/
structure EnvSnapshot where
  ldLibraryPath : Option String
  dyldLibraryPath : Option String
  path : Option String
deriving DecidableEq, Repr

/-- JS truthiness of a `process.env` entry: present and non-empty. -/
def envTruthy : Option String → Bool
  | none => false
  | some s => !s.isEmpty

/-- JS `haystack.includes(needle)`. -/
def strIncludes (haystack needle : String) : Bool :=
  decide (needle.data <:+: haystack.data)

/-- `process.env.PATH?.toLowerCase().includes('oracle')` — `undefined`
when `PATH` is absent, which is falsy. -/
def pathMentionsOracle (path : Option String) : Bool :=
  match path with
  | none => false
  | some p => strIncludes p.toLower "oracle"

/-- `OracleConnection.detectBestMode`
(`src/nodes/Oracle/core/connection.ts`, lines 123-135): `'thick'` when
`LD_LIBRARY_PATH` or `DYLD_LIBRARY_PATH` is truthy, `PATH` mentions
`oracle` case-insensitively, or a `libDir` was configured; `'thin'`
otherwise. -/
def detectBestMode (env : EnvSnapshot) (libDir : Option String) : OracleMode :=
  if envTruthy env.ldLibraryPath || envTruthy env.dyldLibraryPath
      || pathMentionsOracle env.path || envTruthy libDir then
    .thick
  else
    .thin

/-- The requested connection mode (`ConnectionMode` in
`core/connection.ts`). -/
inductive RequestedMode where
  | auto : RequestedMode
  | thin : RequestedMode
  | thick : RequestedMode
deriving DecidableEq, Repr

/-- Mode resolution as performed by `OracleConnection.fallbackDetection`
(and the constructor of the `OracleDatabaseAdvanced` variant of
`OracleConnection`): an explicit `'thin'`/`'thick'` request is kept, and
`'auto'` is replaced by `detectBestMode`. -/
def resolveMode (requested : RequestedMode) (env : EnvSnapshot)
    (libDir : Option String) : OracleMode :=
  match requested with
  | .auto => detectBestMode env libDir
  | .thin => .thin
  | .thick => .thick

/-- C3: connection-mode auto-detection is a pure function of three
boolean signals.  For every environment snapshot, `'auto'` resolves to
`thick` iff at least one of {a library-path environment variable
(`LD_LIBRARY_PATH` or `DYLD_LIBRARY_PATH`) is set (to a non-empty,
i.e. JS-truthy, string — the code tests JS truthiness), `PATH` contains
`"oracle"` case-insensitively, an explicit `libDir` was given} holds, and
to `thin` otherwise; an explicit `'thin'` or `'thick'` request is honored
as-is. -/
theorem c3_auto_detection_signals (env : EnvSnapshot) (libDir : Option String) :
    (resolveMode .auto env libDir = .thick ↔
      (envTruthy env.ldLibraryPath = true ∨ envTruthy env.dyldLibraryPath = true
        ∨ pathMentionsOracle env.path = true ∨ envTruthy libDir = true)) ∧
    (resolveMode .auto env libDir = .thin ↔
      ¬(envTruthy env.ldLibraryPath = true ∨ envTruthy env.dyldLibraryPath = true
        ∨ pathMentionsOracle env.path = true ∨ envTruthy libDir = true)) ∧
    resolveMode .thin env libDir = .thin ∧
    resolveMode .thick env libDir = .thick := by
  have key : detectBestMode env libDir = .thick ↔
      (envTruthy env.ldLibraryPath = true ∨ envTruthy env.dyldLibraryPath = true
        ∨ pathMentionsOracle env.path = true ∨ envTruthy libDir = true) := by
    unfold detectBestMode
    by_cases h : (envTruthy env.ldLibraryPath || envTruthy env.dyldLibraryPath
        || pathMentionsOracle env.path || envTruthy libDir) = true
    · rw [if_pos h]
      simp only [Bool.or_eq_true, or_assoc] at h
      simp [h]
    · simp only [Bool.not_eq_true] at h
      rw [if_neg (by simp [h])]
      simp only [Bool.or_eq_false_iff] at h
      simp [h.1.1.1, h.1.1.2, h.1.2, h.2]
  refine ⟨key, ?_, rfl, rfl⟩
  constructor
  · intro hthin
    intro habs
    have := key.mpr habs
    rw [show resolveMode .auto env libDir = detectBestMode env libDir from rfl] at hthin
    rw [this] at hthin
    exact OracleMode.noConfusion hthin
  · intro habs
    show detectBestMode env libDir = .thin
    cases hm : detectBestMode env libDir with
    | thin => rfl
    | thick => exact absurd (key.mp hm) habs

/-! ## Claims C5, C6: Advanced Queuing operations
(`src/nodes/Oracle/core/aqOperations.ts`) -/

/-- A character allowed after the first one by the queue-name pattern
`[A-Za-z0-9_$#]`. -/
def isQueueNameChar (c : Char) : Bool :=
  c.isAlpha || c.isDigit || c = '_' || c = '$' || c = '#'

/-- The regular expression `^[A-Za-z][A-Za-z0-9_$#]*$` of
`AQOperations.validateQueueName`. -/
def queueNameMatchesPattern (s : String) : Bool :=
  match s.data with
  | [] => false
  | c :: rest => c.isAlpha && rest.all isQueueNameChar

/-- `!queueName || queueName.trim().length === 0`: the name is empty or
consists only of whitespace (trimming leaves nothing). -/
def queueNameBlank (s : String) : Bool :=
  s.isEmpty || s.data.all (·.isWhitespace)

/-- `AQOperations.validateQueueName` (`aqOperations.ts`): empty,
overlong or ill-formed names throw. -/
def validateQueueName (queueName : String) : Except String Unit :=
  if queueNameBlank queueName then
    .error "❌ Nome da fila não pode estar vazio"
  else if queueName.length > 30 then
    .error "❌ Nome da fila não pode exceder 30 caracteres"
  else if !queueNameMatchesPattern queueName then
    .error "❌ Nome da fila contém caracteres inválidos"
  else
    .ok ()

/-- `AQOperationResult` (`aqOperations.ts`); the wall-clock
`executionTime` and the `Date`-valued timestamps are not modelled, and
`payload` is kept as the raw text handed back by the PL/SQL block (the
host-side `JSON.parse` of `parsePayload` is not modelled). -/
structure AQOperationResult where
  success : Bool
  messageId : Option String
  correlationId : Option String
  attemptCount : Option Nat
  payload : Option String
  error : Option String
deriving DecidableEq, Repr

/-- Outcome of running the generated dequeue PL/SQL block against the
queue: the block's own exception handlers turn both the no-message
condition (`ORA-25228`) and any other SQL error into out-binds, so the
driver call resolves normally in all three cases. -/
inductive DequeueOutcome where
  | noMessage : DequeueOutcome
  | msg (messageId correlationId : String) (attemptCount : Nat)
      (payloadText : String) : DequeueOutcome
  | plsqlError (sqlerrm : String) : DequeueOutcome
deriving DecidableEq, Repr

/-- The out-binds produced by the PL/SQL block of `buildDequeuePLSQL`
(`aqOperations.ts`): on `no_messages` it sets `success := 0` and
`error_msg := 'Nenhuma mensagem disponível na fila'`; on any other error
`success := 0` and `error_msg := SQLERRM`; otherwise `success := 1` and
the message fields. -/
structure DequeueOutBinds where
  success : Nat
  message_id : Option String
  correlation_id : Option String
  payload_text : Option String
  error_msg : Option String
  attempt_count : Option Nat
deriving DecidableEq, Repr

def execDequeuePLSQL : DequeueOutcome → DequeueOutBinds
  | .noMessage =>
      ⟨0, none, none, none, some "Nenhuma mensagem disponível na fila", none⟩
  | .msg mid cid att txt => ⟨1, some mid, some cid, some txt, none, some att⟩
  | .plsqlError m => ⟨0, none, none, none, some m, none⟩

/-- JS `a || b` for an optional string: the fallback is used when the
value is absent or empty (falsy). -/
def orElseStr (o : Option String) (d : String) : String :=
  match o with
  | some s => if s.isEmpty then d else s
  | none => d

/-- `AQOperations.dequeueMessage` (`aqOperations.ts`, lines 189-242):
validate the queue name, run the dequeue PL/SQL block, shape the
out-binds into an `AQOperationResult`; the outer `catch` converts any
thrown error into a `success: false` result, so the function is total.
The `connection.commit()` performed when `autoCommit` is set and a
message was received only touches the driver and is not modelled. -/
def dequeueMessage (queueName : String) (outcome : DequeueOutcome) :
    AQOperationResult :=
  let inner : Except String AQOperationResult :=
    match validateQueueName queueName with
    | .error e => .error e
    | .ok _ =>
      let ob := execDequeuePLSQL outcome
      if ob.success = 1 then
        .ok { success := true, messageId := ob.message_id
              correlationId := ob.correlation_id
              attemptCount := ob.attempt_count
              payload := ob.payload_text, error := none }
      else
        .ok { success := false, messageId := none, correlationId := none
              attemptCount := none, payload := none
              error := some (orElseStr ob.error_msg "Nenhuma mensagem disponível") }
  match inner with
  | .ok r => r
  | .error e =>
      { success := false, messageId := none, correlationId := none
        attemptCount := none, payload := none
        error := some ("Erro ao desenfileirar mensagem: " ++ e) }

/-- C5: dequeuing from an empty queue (the PL/SQL block reports
`no_messages`) returns a result with `success = false` whose `error`
reports that no message is available; `dequeueMessage` is a total
function into `AQOperationResult` — every throw inside its body is caught
and converted into a result, so the no-message condition never
propagates as an exception. -/
theorem c5_dequeue_empty_queue_no_throw (queueName : String)
    (hq : validateQueueName queueName = .ok ()) :
    dequeueMessage queueName .noMessage =
      { success := false, messageId := none, correlationId := none
        attemptCount := none, payload := none
        error := some "Nenhuma mensagem disponível na fila" } := by
  unfold dequeueMessage
  rw [hq]
  rfl

/-- C5 (witness): the theorem applied to the concrete queue
`"MY_QUEUE"`. -/
theorem c5_dequeue_empty_queue_no_throw_witness :
    dequeueMessage "MY_QUEUE" .noMessage =
      { success := false, messageId := none, correlationId := none
        attemptCount := none, payload := none
        error := some "Nenhuma mensagem disponível na fila" } :=
  c5_dequeue_empty_queue_no_throw "MY_QUEUE" (by rfl)

/-- `AQMessage` (`aqOperations.ts`); the fields that influence the
enqueue control flow.  `payload` is a JS runtime value: `validateMessage`
rejects `undefined`.  Delay/expiration/priority only feed the bind map
and are not modelled. -/
structure AQMessage where
  payload : JSValue
  correlationId : Option String
deriving DecidableEq, Repr

/-- The outcome of the driver executing the generated enqueue PL/SQL
block for one message: a message id, or a thrown driver/SQL error. -/
inductive EnqueueOutcome where
  | ok (messageId : String) : EnqueueOutcome
  | fail (message : String) : EnqueueOutcome
deriving DecidableEq, Repr

/-- `AQOperations.enqueueMessage` (`aqOperations.ts`, lines 140-184):
validate queue name and message, run the enqueue block (abstracted by
the driver outcome `drv`), shape the result; the outer `catch` converts
any thrown error into a `success: false` result carrying
`formatError`'s text.  The PL/SQL text generation, payload typing and the
optional `commit` only affect the driver and are not modelled. -/
def enqueueMessage (queueName : String) (msg : AQMessage)
    (drv : AQMessage → EnqueueOutcome) : AQOperationResult :=
  let inner : Except String AQOperationResult :=
    match validateQueueName queueName with
    | .error e => .error e
    | .ok _ =>
      if msg.payload = .undef then
        .error "❌ Mensagem deve conter payload"
      else
        match drv msg with
        | .ok mid =>
            .ok { success := true, messageId := some mid
                  correlationId := msg.correlationId
                  attemptCount := none, payload := none, error := none }
        | .fail m => .error m
  match inner with
  | .ok r => r
  | .error e =>
      { success := false, messageId := none, correlationId := none
        attemptCount := none, payload := none
        error := some ("Erro ao enfileirar mensagem: " ++ e) }

/-- `AQBatchResult` (`aqOperations.ts`); `executionTime` not modelled. -/
structure AQBatchResult where
  totalMessages : Nat
  successfulMessages : Nat
  failedMessages : Nat
  results : List AQOperationResult
  errors : List String
deriving DecidableEq, Repr

/-- The `for` loop of `AQOperations.enqueueBatch`: processes the
messages in order starting at index `i`, collecting the per-message
results, the error strings `Mensagem ${i+1}: ${result.error}` for failed
messages, and the success count. -/
def enqueueBatchGo (queueName : String) (drv : AQMessage → EnqueueOutcome) :
    Nat → List AQMessage → List AQOperationResult × List String × Nat
  | _, [] => ([], [], 0)
  | i, m :: rest =>
    let r := enqueueMessage queueName m drv
    let t := enqueueBatchGo queueName drv (i + 1) rest
    (r :: t.1,
     (if r.success then t.2.1
      else (s!"Mensagem {i + 1}: " ++ r.error.getD "undefined") :: t.2.1),
     (if r.success then t.2.2 + 1 else t.2.2))

/-- `AQOperations.enqueueBatch` (`aqOperations.ts`, lines 247-319):
reject an empty list, loop over the messages collecting results, error
entries and the success count, and report the totals.  The
transaction-mode final `commit`/`rollback` only touch the driver and are
not modelled; `enqueueMessage` never throws, so the loop always
completes. -/
def enqueueBatch (queueName : String) (msgs : List AQMessage)
    (drv : AQMessage → EnqueueOutcome) : Except String AQBatchResult :=
  if msgs.isEmpty then
    .error "❌ Lista de mensagens não pode estar vazia"
  else
    let t := enqueueBatchGo queueName drv 0 msgs
    .ok { totalMessages := msgs.length
          successfulMessages := t.2.2
          failedMessages := msgs.length - t.2.2
          results := t.1
          errors := t.2.1 }

/-- A well-formed message for which the driver succeeds enqueues
successfully. -/
theorem enqueueMessage_success (qn : String) (m : AQMessage)
    (drv : AQMessage → EnqueueOutcome) (mid : String)
    (hq : validateQueueName qn = .ok ()) (hm : m.payload ≠ .undef)
    (hd : drv m = .ok mid) :
    enqueueMessage qn m drv =
      { success := true, messageId := some mid, correlationId := m.correlationId
        attemptCount := none, payload := none, error := none } := by
  unfold enqueueMessage
  rw [hq, if_neg hm, hd]

/-- A message without payload yields a failed result with
`formatError`'s text. -/
theorem enqueueMessage_malformed (qn : String) (m : AQMessage)
    (drv : AQMessage → EnqueueOutcome)
    (hq : validateQueueName qn = .ok ()) (hm : m.payload = .undef) :
    enqueueMessage qn m drv =
      { success := false, messageId := none, correlationId := none
        attemptCount := none, payload := none
        error := some "Erro ao enfileirar mensagem: ❌ Mensagem deve conter payload" } := by
  unfold enqueueMessage
  rw [hq, if_pos hm]
  rfl

/-- Unfolding of the batch loop on a non-empty list. -/
theorem enqueueBatchGo_cons (qn : String) (drv : AQMessage → EnqueueOutcome)
    (i : Nat) (x : AQMessage) (xs : List AQMessage) :
    enqueueBatchGo qn drv i (x :: xs) =
      (enqueueMessage qn x drv :: (enqueueBatchGo qn drv (i + 1) xs).1,
       (if (enqueueMessage qn x drv).success = true
        then (enqueueBatchGo qn drv (i + 1) xs).2.1
        else (s!"Mensagem {i + 1}: " ++
          (enqueueMessage qn x drv).error.getD "undefined") ::
            (enqueueBatchGo qn drv (i + 1) xs).2.1),
       (if (enqueueMessage qn x drv).success = true
        then (enqueueBatchGo qn drv (i + 1) xs).2.2 + 1
        else (enqueueBatchGo qn drv (i + 1) xs).2.2)) := rfl

/-- The batch loop on a list of messages that all enqueue successfully
returns all the per-message results, no errors, and a full success
count. -/
theorem enqueueBatchGo_all_success (qn : String)
    (drv : AQMessage → EnqueueOutcome) :
    ∀ (xs : List AQMessage) (i : Nat),
      (∀ m ∈ xs, (enqueueMessage qn m drv).success = true) →
      enqueueBatchGo qn drv i xs =
        (xs.map (fun m => enqueueMessage qn m drv), [], xs.length) := by
  intro xs
  induction xs with
  | nil => intro i _; rfl
  | cons x rest ih =>
    intro i hall
    have hx := hall x (by simp)
    have hrest := ih (i + 1) (fun m hm => hall m (by simp [hm]))
    simp only [enqueueBatchGo, hrest, hx, List.map_cons, List.length_cons, if_pos]

/-- The batch loop over `pre ++ bad :: post`, where every message of
`pre` and `post` enqueues successfully and `bad` fails: all rows are
processed in order, the single error entry carries the 1-based position
of `bad`, and the success count misses exactly one. -/
theorem enqueueBatchGo_one_bad (qn : String) (drv : AQMessage → EnqueueOutcome)
    (bad : AQMessage) (post : List AQMessage)
    (hbad : (enqueueMessage qn bad drv).success = false)
    (hpost : ∀ m ∈ post, (enqueueMessage qn m drv).success = true) :
    ∀ (pre : List AQMessage),
      (∀ m ∈ pre, (enqueueMessage qn m drv).success = true) →
      ∀ i : Nat,
      enqueueBatchGo qn drv i (pre ++ bad :: post) =
        (pre.map (fun m => enqueueMessage qn m drv) ++
           enqueueMessage qn bad drv ::
             post.map (fun m => enqueueMessage qn m drv),
         [s!"Mensagem {i + pre.length + 1}: " ++
            (enqueueMessage qn bad drv).error.getD "undefined"],
         pre.length + post.length) := by
  intro pre
  induction pre with
  | nil =>
    intro _ i
    simp only [List.nil_append, enqueueBatchGo, hbad,
      enqueueBatchGo_all_success qn drv post (i + 1) hpost, List.map_nil,
      List.length_nil, List.map_cons, Bool.false_eq_true, if_false]
    simp
  | cons x rest ih =>
    intro hpre i
    have hx := hpre x (by simp)
    have hrest := ih (fun m hm => hpre m (by simp [hm])) (i + 1)
    rw [List.cons_append, enqueueBatchGo_cons, hrest, if_pos hx, if_pos hx]
    simp only [List.map_cons, List.cons_append, List.length_cons, Prod.mk.injEq]
    refine ⟨trivial, ?_, by omega⟩
    rw [show i + 1 + rest.length = i + (rest.length + 1) from by omega]

/-- C6: enqueueing a batch of `N` rows where exactly the row at 0-based
position `pre.length` is malformed (its `payload` is `undefined`) and
every other row enqueues successfully yields
`successfulMessages = N - 1`, `failedMessages = 1`, `totalMessages = N`,
a results list of length `N`, and a single error entry carrying the
malformed row's 1-based position `pre.length + 1`; the rows after the
malformed one are still processed (their results appear, successful, in
order).  `enqueueBatch` always continues past per-row failures because
`enqueueMessage` converts its own errors into `success: false`
results. -/
theorem c6_enqueue_batch_one_malformed (qn : String)
    (pre post : List AQMessage) (bad : AQMessage)
    (drv : AQMessage → EnqueueOutcome)
    (hq : validateQueueName qn = .ok ())
    (hbad : bad.payload = .undef)
    (hpre : ∀ m ∈ pre, m.payload ≠ .undef)
    (hpost : ∀ m ∈ post, m.payload ≠ .undef)
    (hdrv : ∀ m, m.payload ≠ .undef → ∃ mid, drv m = .ok mid) :
    ∃ b, enqueueBatch qn (pre ++ bad :: post) drv = .ok b ∧
      b.totalMessages = pre.length + 1 + post.length ∧
      b.successfulMessages = pre.length + post.length ∧
      b.failedMessages = 1 ∧
      b.results.length = pre.length + 1 + post.length ∧
      b.errors = [s!"Mensagem {pre.length + 1}: " ++
        "Erro ao enfileirar mensagem: ❌ Mensagem deve conter payload"] ∧
      b.results = pre.map (fun m => enqueueMessage qn m drv) ++
        enqueueMessage qn bad drv ::
          post.map (fun m => enqueueMessage qn m drv) ∧
      (∀ m ∈ post, (enqueueMessage qn m drv).success = true) := by
  have hsucc : ∀ m, m.payload ≠ .undef →
      (enqueueMessage qn m drv).success = true := by
    intro m hm
    obtain ⟨mid, hd⟩ := hdrv m hm
    rw [enqueueMessage_success qn m drv mid hq hm hd]
  have hbadf := enqueueMessage_malformed qn bad drv hq hbad
  have hbadsucc : (enqueueMessage qn bad drv).success = false := by rw [hbadf]
  have hgo := enqueueBatchGo_one_bad qn drv bad post hbadsucc
    (fun m hm => hsucc m (hpost m hm)) pre (fun m hm => hsucc m (hpre m hm)) 0
  unfold enqueueBatch
  rw [if_neg (by simp)]
  refine ⟨_, rfl, ?_, ?_, ?_, ?_, ?_, ?_, fun m hm => hsucc m (hpost m hm)⟩
  · show (pre ++ bad :: post).length = pre.length + 1 + post.length
    simp [List.length_append]
    omega
  · show (enqueueBatchGo qn drv 0 (pre ++ bad :: post)).2.2 = pre.length + post.length
    rw [hgo]
  · show (pre ++ bad :: post).length -
        (enqueueBatchGo qn drv 0 (pre ++ bad :: post)).2.2 = 1
    rw [hgo]
    simp [List.length_append]
    omega
  · show (enqueueBatchGo qn drv 0 (pre ++ bad :: post)).1.length =
        pre.length + 1 + post.length
    rw [hgo]
    simp [List.length_append]
    omega
  · show (enqueueBatchGo qn drv 0 (pre ++ bad :: post)).2.1 = _
    rw [hgo, hbadf]
    simp
  · show (enqueueBatchGo qn drv 0 (pre ++ bad :: post)).1 = _
    rw [hgo]

/-- C6 (witness): a concrete three-row batch whose middle row has no
payload, enqueued into `"MY_QUEUE"` with a driver that accepts every
well-formed message. -/
theorem c6_enqueue_batch_one_malformed_witness :
    ∃ b, enqueueBatch "MY_QUEUE"
        [⟨.str "a", none⟩, ⟨.undef, none⟩, ⟨.str "c", none⟩]
        (fun _ => .ok "MSGID") = .ok b ∧
      b.totalMessages = 1 + 1 + 1 ∧
      b.successfulMessages = 1 + 1 ∧
      b.failedMessages = 1 ∧
      b.results.length = 1 + 1 + 1 ∧
      b.errors = [s!"Mensagem {1 + 1}: " ++
        "Erro ao enfileirar mensagem: ❌ Mensagem deve conter payload"] ∧
      b.results = [⟨.str "a", none⟩].map
          (fun m => enqueueMessage "MY_QUEUE" m (fun _ => .ok "MSGID")) ++
        enqueueMessage "MY_QUEUE" ⟨.undef, none⟩ (fun _ => .ok "MSGID") ::
          [⟨.str "c", none⟩].map
            (fun m => enqueueMessage "MY_QUEUE" m (fun _ => .ok "MSGID")) ∧
      (∀ m ∈ [(⟨.str "c", none⟩ : AQMessage)],
        (enqueueMessage "MY_QUEUE" m (fun _ => .ok "MSGID")).success = true) := by
  have h := c6_enqueue_batch_one_malformed "MY_QUEUE"
    [⟨.str "a", none⟩] [⟨.str "c", none⟩] ⟨.undef, none⟩ (fun _ => .ok "MSGID")
    (by rfl) rfl
    (by intro m hm; simp at hm; subst hm; simp)
    (by intro m hm; simp at hm; subst hm; simp)
    (fun m _ => ⟨"MSGID", rfl⟩)
  simpa using h

/-! ## Claim C4: transaction execution
(`src/unnamed/part_001`, `executeTransaction`, lines 755-812, and the
transaction manager it drives) -/

/-- A SQL statement in a transaction batch together with the database's
behaviour on it (`ok = true` iff executing it succeeds). -/
structure TxStmt where
  sql : String
  ok : Bool
deriving DecidableEq, Repr

/-- Observable driver-level events of a transaction run. -/
inductive TxEvent where
  | begin : TxEvent
  | savepoint (name : String) : TxEvent
  | exec (sql : String) : TxEvent
  | commit : TxEvent
  | rollback : TxEvent
deriving DecidableEq, Repr

/-- The ways the transaction path can throw. -/
inductive TxFailure where
  | emptyStatements : TxFailure
  | statementFailed (position : Nat) (message : String) : TxFailure
deriving DecidableEq, Repr

/-- Transactional database state: effects made durable by `commit` and
effects of the current transaction, discarded by `rollback`.  An effect
is recorded as the SQL text of the statement that produced it. -/
structure TxDB where
  committed : List String
  pending : List String
deriving DecidableEq, Repr

/-- Modelled from the spec: the body of the transaction manager's
`executeBatch` (`core/transactionManager.ts` is not part of the sources;
the spec describes it as executing the statements in order, wrapping each
with a named savepoint when `savepointPerOperation` is set, and failing
on the first statement error when `stopOnError` is set, with the error
referencing the failing statement's 1-based position; with `stopOnError`
false, row-level failures are collected and execution continues).
Returns the per-statement outcomes (or the abort error), the driver
events, and the effects executed so far (pending until commit). -/
def executeBatchGo (savepointPerOp stopOnError : Bool) :
    Nat → List TxStmt → Except TxFailure (List Bool) × List TxEvent × List String
  | _, [] => (.ok [], [], [])
  | i, op :: rest =>
    let evSp := if savepointPerOp then [TxEvent.savepoint s!"SP_{i}"] else []
    if op.ok then
      let t := executeBatchGo savepointPerOp stopOnError (i + 1) rest
      (match t.1 with
       | .ok results => .ok (true :: results)
       | .error e => .error e,
       evSp ++ [TxEvent.exec op.sql] ++ t.2.1,
       op.sql :: t.2.2)
    else if stopOnError then
      (.error (.statementFailed i s!"Statement {i} failed: {op.sql}"), evSp, [])
    else
      let t := executeBatchGo savepointPerOp stopOnError (i + 1) rest
      (match t.1 with
       | .ok results => .ok (false :: results)
       | .error e => .error e,
       evSp ++ t.2.1,
       t.2.2)

/-- Modelled from the spec: the transaction manager's `executeBatch`
entry point, positions starting at 1. -/
def executeBatch (ops : List TxStmt) (savepointPerOp stopOnError : Bool) :
    Except TxFailure (List Bool) × List TxEvent × List String :=
  executeBatchGo savepointPerOp stopOnError 1 ops

/-- `executeTransaction` from `src/unnamed/part_001` (lines 755-812),
over an already-split statement list: `beginTransaction`, then
`executeBatch` with `savepointPerOperation: true` and
`stopOnError: !continueOnError`; on success `commit` (pending effects
become durable), on any thrown error `rollback` (pending effects are
discarded) and the error is rethrown.  The statement list is empty →
the `'No valid SQL statements found'` throw, also rolled back.
`stmtOk` is the database's behaviour per statement. -/
def executeTransactionOps (stmts : List String) (stmtOk : String → Bool)
    (continueOnError : Bool) (db : TxDB) :
    Except TxFailure (List Bool) × List TxEvent × TxDB :=
  if stmts.isEmpty then
    (.error .emptyStatements, [TxEvent.begin, TxEvent.rollback],
     { committed := db.committed, pending := [] })
  else
    let ops := stmts.map (fun s => TxStmt.mk s (stmtOk s))
    let batch := executeBatch ops true (!continueOnError)
    match batch.1 with
    | .ok results =>
        (.ok results,
         TxEvent.begin :: batch.2.1 ++ [TxEvent.commit],
         { committed := db.committed ++ batch.2.2, pending := [] })
    | .error e =>
        (.error e,
         TxEvent.begin :: batch.2.1 ++ [TxEvent.rollback],
         { committed := db.committed, pending := [] })

/-- The statement splitting performed by `executeTransaction` on the
form's SQL text: split on `';'`, trim, drop empties. -/
def splitStatements (statement : String) : List String :=
  ((statement.splitOn ";").map (fun s => s.trim)).filter (fun s => s.length > 0)

/-- `executeTransaction` from `src/unnamed/part_001` on the raw
statement text. -/
def executeTransaction (statement : String) (stmtOk : String → Bool)
    (continueOnError : Bool) (db : TxDB) :
    Except TxFailure (List Bool) × List TxEvent × TxDB :=
  executeTransactionOps (splitStatements statement) stmtOk continueOnError db

/-- C4: running the transaction operation on the statement sequence
`[S1, S2, S3]` with `stopOnError` in effect (`continueOnError = false`),
where `S1` succeeds and `S2` fails: the thrown error references the
failing statement's position (2), committed state is unchanged — `S1`'s
pending effect is rolled back — and the event trace contains no commit
and exactly one rollback.  When all three statements succeed, the run
returns success, appends all three effects, and performs exactly one
commit.  The `executeBatch` body is modelled from the spec (its source,
`core/transactionManager.ts`, is not among the sources); the surrounding
begin/commit/rollback wrapper is `executeTransaction` from
`src/unnamed/part_001`. -/
theorem c4_transaction_rollback_and_position (s1 s2 s3 : String)
    (stmtOk : String → Bool) (db : TxDB)
    (h1 : stmtOk s1 = true) (h2 : stmtOk s2 = false) :
    ((executeTransactionOps [s1, s2, s3] stmtOk false db).1 =
        .error (.statementFailed 2 ("Statement 2 failed: " ++ s2)) ∧
      (executeTransactionOps [s1, s2, s3] stmtOk false db).2.2.committed =
        db.committed ∧
      (executeTransactionOps [s1, s2, s3] stmtOk false db).2.2.pending = [] ∧
      (executeTransactionOps [s1, s2, s3] stmtOk false db).2.1.count
        TxEvent.commit = 0 ∧
      (executeTransactionOps [s1, s2, s3] stmtOk false db).2.1.count
        TxEvent.rollback = 1) ∧
    (∀ t1 t2 t3 : String, stmtOk t1 = true → stmtOk t2 = true →
      stmtOk t3 = true →
      (executeTransactionOps [t1, t2, t3] stmtOk false db).1 =
        .ok [true, true, true] ∧
      (executeTransactionOps [t1, t2, t3] stmtOk false db).2.2.committed =
        db.committed ++ [t1, t2, t3] ∧
      (executeTransactionOps [t1, t2, t3] stmtOk false db).2.1.count
        TxEvent.commit = 1) := by
  constructor
  · have hrun : executeTransactionOps [s1, s2, s3] stmtOk false db =
        (.error (.statementFailed 2 ("Statement 2 failed: " ++ s2)),
         [TxEvent.begin, TxEvent.savepoint "SP_1", TxEvent.exec s1,
           TxEvent.savepoint "SP_2", TxEvent.rollback],
         { committed := db.committed, pending := [] }) := by
      unfold executeTransactionOps executeBatch
      rw [if_neg (by simp)]
      simp only [List.map_cons, List.map_nil, h1, h2]
      simp [executeBatchGo]
      refine ⟨?_, ?_, ?_⟩
      · show "Statement " ++ "2" ++ " failed: " ++ (s2 ++ "") =
          "Statement 2 failed: " ++ s2
        rw [String.append_empty]
        exact congrArg (fun x => x ++ s2) (by rfl)
      · rfl
      · rfl
    rw [hrun]
    exact ⟨rfl, rfl, rfl, rfl, rfl⟩
  · intro t1 t2 t3 g1 g2 g3
    have hrun : executeTransactionOps [t1, t2, t3] stmtOk false db =
        (.ok [true, true, true],
         [TxEvent.begin, TxEvent.savepoint "SP_1", TxEvent.exec t1,
           TxEvent.savepoint "SP_2", TxEvent.exec t2,
           TxEvent.savepoint "SP_3", TxEvent.exec t3, TxEvent.commit],
         { committed := db.committed ++ [t1, t2, t3], pending := [] }) := by
      unfold executeTransactionOps executeBatch
      rw [if_neg (by simp)]
      simp only [List.map_cons, List.map_nil, g1, g2, g3]
      simp [executeBatchGo]
      exact ⟨rfl, rfl, rfl⟩
    rw [hrun]
    exact ⟨rfl, rfl, rfl⟩

/-- C4 (witness): the theorem applied to the concrete statements
`["S1", "S2", "S3"]` against a database that rejects exactly `"S2"`,
starting from a state with one previously committed effect. -/
theorem c4_transaction_rollback_and_position_witness :
    (executeTransactionOps ["S1", "S2", "S3"] (fun s => s != "S2") false
        ⟨["PRIOR"], []⟩).1 =
      .error (.statementFailed 2 ("Statement 2 failed: " ++ "S2")) ∧
    (executeTransactionOps ["S1", "S2", "S3"] (fun s => s != "S2") false
        ⟨["PRIOR"], []⟩).2.2.committed = ["PRIOR"] ∧
    (executeTransactionOps ["S1", "S2", "S3"] (fun s => s != "S2") false
        ⟨["PRIOR"], []⟩).2.1.count TxEvent.commit = 0 := by
  have h := (c4_transaction_rollback_and_position "S1" "S2" "S3"
    (fun s => s != "S2") ⟨["PRIOR"], []⟩ (by rfl) (by rfl)).1
  exact ⟨h.1, h.2.1, h.2.2.2.1⟩

/-! ## Claims C8, C9: node facade execute paths
(`OracleDatabase.node.ts`, `src/unnamed/part_001`,
`OracleVectorStore.node.ts`) -/

/-- Observable events of a facade invocation. -/
inductive FEvent where
  | acquired : FEvent
  | opDone : FEvent
  | opFailed : FEvent
  | closeTried : FEvent
  | closeFailed : FEvent
deriving DecidableEq, Repr

/-- An error escaping a facade's `execute`: either a plain (raw) thrown
error, or an n8n `NodeOperationError` with its optional `itemIndex` and
`description` options. -/
inductive FacadeError where
  | raw (message : String) : FacadeError
  | nodeOperation (message : String) (itemIndex : Option Nat)
      (description : Option String) : FacadeError
deriving DecidableEq, Repr

/-- `OracleDatabase.execute` (`OracleDatabase.node.ts`, lines 116-206):
`db.getConnection()` is awaited BEFORE the `try` block, so an acquisition
error propagates as thrown (raw); inside the `try`, the query work runs;
the `catch` wraps the error in `NodeOperationError(node, message)` —
with no `itemIndex` and no `description` —; the `finally` closes the
connection, logging (and swallowing) close errors.  `acquire`, `op` and
`closeOk` are the outcomes of the driver calls. -/
def oracleDatabaseExecute (acquire : Except String Unit)
    (op : Except String Nat) (closeOk : Bool) :
    Except FacadeError Nat × List FEvent :=
  match acquire with
  | .error e => (.error (.raw e), [])
  | .ok _ =>
    let closeEvents :=
      FEvent.closeTried :: (if closeOk then [] else [FEvent.closeFailed])
    match op with
    | .ok n => (.ok n, FEvent.acquired :: FEvent.opDone :: closeEvents)
    | .error e =>
        (.error (.nodeOperation e none none),
         FEvent.acquired :: FEvent.opFailed :: closeEvents)

/-- `OracleVectorStore.execute` (`OracleVectorStore.node.ts`, lines
186-252): a credentials-completeness check throws a `NodeOperationError`
before anything is acquired; the pool connection is acquired inside the
`try`, so an acquisition error is caught and wrapped (with prefix
`Oracle Vector Store Error: `, no `itemIndex`, no `description`) and the
`finally` skips the close (the connection variable is still undefined);
an operation error is wrapped the same way after the close runs. -/
def oracleVectorStoreExecute (credsOk : Bool) (acquire : Except String Unit)
    (op : Except String Nat) (closeOk : Bool) :
    Except FacadeError Nat × List FEvent :=
  if !credsOk then
    (.error (.nodeOperation
      "Credenciais Oracle incompletas. Verifique user, password e connectionString."
      none none), [])
  else
    match acquire with
    | .error e =>
        (.error (.nodeOperation ("Oracle Vector Store Error: " ++ e) none none),
         [])
    | .ok _ =>
      let closeEvents :=
        FEvent.closeTried :: (if closeOk then [] else [FEvent.closeFailed])
      match op with
      | .ok n => (.ok n, FEvent.acquired :: FEvent.opDone :: closeEvents)
      | .error e =>
          (.error (.nodeOperation ("Oracle Vector Store Error: " ++ e) none none),
           FEvent.acquired :: FEvent.opFailed :: closeEvents)

/-- The per-item loop of `OracleDatabaseAdvanced.execute`
(`src/unnamed/part_001`, lines 894-954): each item's operation runs in
order; the first failure is wrapped in a `NodeOperationError` carrying
the item's index and a remediation description, aborting the loop. -/
def advancedItemLoop :
    Nat → List (Except String Nat) → Except FacadeError (List Nat) × List FEvent
  | _, [] => (.ok [], [])
  | i, .ok n :: rest =>
    let t := advancedItemLoop (i + 1) rest
    (match t.1 with
     | .ok ns => .ok (n :: ns)
     | .error e => .error e,
     FEvent.opDone :: t.2)
  | i, .error e :: _ =>
    (.error (.nodeOperation (s!"Error processing item {i}: " ++ e) (some i)
       (some "Check your SQL/PL/SQL syntax and parameters")),
     [FEvent.opFailed])

/-- `OracleDatabaseAdvanced.execute` (`src/unnamed/part_001`, lines
857-997): credential retrieval, `prepareOracleCredentials` and client
initialization run BEFORE the `try`, so their errors propagate raw; the
connection is acquired inside the `try` (an acquisition error is caught
by the outer `catch` and wrapped with `itemIndex: 0` and a remediation
description; the `finally` has no connection to close); the item loop's
`NodeOperationError`s are rethrown as-is by the outer `catch`
(`instanceof` check); the `finally` closes the connection, swallowing
close errors.  `modeStr` is the thin/thick label used in the outer wrap
message. -/
def oracleDatabaseAdvancedExecute (modeStr : String)
    (prep : Except String Unit) (acquire : Except String Unit)
    (items : List (Except String Nat)) (closeOk : Bool) :
    Except FacadeError (List Nat) × List FEvent :=
  match prep with
  | .error e => (.error (.raw e), [])
  | .ok _ =>
    match acquire with
    | .error e =>
        (.error (.nodeOperation
          (s!"Oracle Advanced Error ({modeStr} mode): " ++ e) (some 0)
          (some "Verify your credentials, mode settings, and SQL/PL/SQL commands")),
         [])
    | .ok _ =>
      let t := advancedItemLoop 0 items
      let closeEvents :=
        FEvent.closeTried :: (if closeOk then [] else [FEvent.closeFailed])
      (t.1, FEvent.acquired :: t.2 ++ closeEvents)

/-- The item loop never acquires or closes connections itself. -/
theorem advancedItemLoop_no_conn_events (items : List (Except String Nat)) :
    ∀ i, (advancedItemLoop i items).2.count FEvent.acquired = 0 ∧
      (advancedItemLoop i items).2.count FEvent.closeTried = 0 := by
  induction items with
  | nil => intro i; exact ⟨rfl, rfl⟩
  | cons x rest ih =>
    intro i
    cases x with
    | ok n =>
      have := ih (i + 1)
      simp only [advancedItemLoop]
      constructor
      · rw [List.count_cons_of_ne (by decide)]
        exact this.1
      · rw [List.count_cons_of_ne (by decide)]
        exact this.2
    | error e => exact ⟨rfl, rfl⟩

/-- C8: in each of the three node facades, every acquired connection is
closed exactly once, on the success path and on every error path alike:
for every combination of driver outcomes, the number of `close()`
attempts in the event trace equals the number of successful connection
acquisitions (1 when a connection was acquired, 0 when acquisition never
happened or failed). -/
theorem c8_connection_always_closed :
    (∀ (acquire : Except String Unit) (op : Except String Nat) (closeOk : Bool),
      ((oracleDatabaseExecute acquire op closeOk).2.count FEvent.closeTried =
        (oracleDatabaseExecute acquire op closeOk).2.count FEvent.acquired)) ∧
    (∀ (credsOk : Bool) (acquire : Except String Unit) (op : Except String Nat)
        (closeOk : Bool),
      ((oracleVectorStoreExecute credsOk acquire op closeOk).2.count
          FEvent.closeTried =
        (oracleVectorStoreExecute credsOk acquire op closeOk).2.count
          FEvent.acquired)) ∧
    (∀ (modeStr : String) (prep acquire : Except String Unit)
        (items : List (Except String Nat)) (closeOk : Bool),
      ((oracleDatabaseAdvancedExecute modeStr prep acquire items closeOk).2.count
          FEvent.closeTried =
        (oracleDatabaseAdvancedExecute modeStr prep acquire items closeOk).2.count
          FEvent.acquired)) := by
  refine ⟨?_, ?_, ?_⟩
  · intro acquire op closeOk
    cases acquire with
    | error e => rfl
    | ok _ => cases op <;> cases closeOk <;> rfl
  · intro credsOk acquire op closeOk
    cases credsOk with
    | false => rfl
    | true =>
      cases acquire with
      | error e => rfl
      | ok _ => cases op <;> cases closeOk <;> rfl
  · intro modeStr prep acquire items closeOk
    cases prep with
    | error e => rfl
    | ok _ =>
      cases acquire with
      | error e => rfl
      | ok _ =>
        have hloop := advancedItemLoop_no_conn_events items 0
        cases closeOk <;>
          simp [oracleDatabaseAdvancedExecute, List.count_append,
            List.count_cons, hloop.1, hloop.2]

/-- C9 (counterexample): the claim states that no raw driver exception
ever propagates unwrapped out of a facade.  In `OracleDatabase.execute`
the connection is acquired before the `try` block, so a driver
connection failure propagates out of `execute` as-is, not wrapped in a
`NodeOperationError`. -/
theorem c9_raw_propagation_counterexample :
    oracleDatabaseExecute (.error "ORA-12170: TNS:Connect timeout occurred")
        (.ok 0) true =
      (.error (.raw "ORA-12170: TNS:Connect timeout occurred"), []) := rfl

/-- C9 (amended): errors raised inside the `try` block of a facade's
execute are caught and wrapped into a `NodeOperationError` before
propagating — the advanced facade's wrap carries the failing item index
and a remediation description, while the basic and vector-store facades
wrap with a message only (no item index, no description); errors thrown
before the `try` block (credential preparation in the advanced facade,
connection acquisition in the basic facade) propagate unwrapped. -/
theorem c9_amended_error_wrapping :
    (∀ (e : String) (closeOk : Bool),
      (oracleDatabaseExecute (.ok ()) (.error e) closeOk).1 =
        .error (.nodeOperation e none none)) ∧
    (∀ (e : String) (closeOk : Bool),
      (oracleVectorStoreExecute true (.ok ()) (.error e) closeOk).1 =
        .error (.nodeOperation ("Oracle Vector Store Error: " ++ e) none none)) ∧
    (∀ (modeStr e : String) (closeOk : Bool) (n : Nat)
        (rest : List (Except String Nat)),
      (oracleDatabaseAdvancedExecute modeStr (.ok ()) (.ok ())
          (.ok n :: .error e :: rest) closeOk).1 =
        .error (.nodeOperation (s!"Error processing item {1}: " ++ e) (some 1)
          (some "Check your SQL/PL/SQL syntax and parameters"))) ∧
    (∀ (acquireErr : String) (op : Except String Nat) (closeOk : Bool),
      (oracleDatabaseExecute (.error acquireErr) op closeOk).1 =
        .error (.raw acquireErr)) ∧
    (∀ (modeStr prepErr : String) (acquire : Except String Unit)
        (items : List (Except String Nat)) (closeOk : Bool),
      (oracleDatabaseAdvancedExecute modeStr (.error prepErr) acquire items
          closeOk).1 = .error (.raw prepErr)) := by
  refine ⟨?_, ?_, ?_, ?_, ?_⟩
  · intro e closeOk; rfl
  · intro e closeOk; rfl
  · intro modeStr e closeOk n rest; rfl
  · intro acquireErr op closeOk; rfl
  · intro modeStr prepErr acquire items closeOk; rfl

/-! ## Claim C10: vector-store similarity search parameter validation
(`OracleVectorStore.node.ts`, `searchSimilarity`, lines 424-491) -/

/-- A parsed JSON value, the possible result of the host `JSON.parse` on
the `searchVector` form field. -/
inductive JsonVal where
  | null : JsonVal
  | bool (b : Bool) : JsonVal
  | num (q : ℚ) : JsonVal
  | str (s : String) : JsonVal
  | arr (xs : List JsonVal) : JsonVal

/-- Extract the numeric value of every element; `none` as soon as one
element is not a number (`typeof val !== 'number'`; JSON cannot encode
`NaN`, so the `isNaN` check cannot fire on parsed JSON). -/
def jsonNums : List JsonVal → Option (List ℚ)
  | [] => some []
  | .num q :: rest =>
    match jsonNums rest with
    | some qs => some (q :: qs)
    | none => none
  | _ :: _ => none

/-- `Math.max(1, Math.min(1000, limit))` (`OracleVectorStore.node.ts`,
line 430). -/
def clampLimit (x : ℚ) : ℚ := max 1 (min 1000 x)

/-- `Math.max(0, Math.min(1, threshold))` (line 431). -/
def clampThreshold (x : ℚ) : ℚ := max 0 (min 1 x)

/-- The bind parameters of the similarity-search SQL statement actually
handed to `connection.execute`. -/
structure SearchQuery where
  collection : String
  metric : String
  vec : List ℚ
  threshold : ℚ
  fetchLimit : ℚ
deriving DecidableEq, Repr

/-- `OracleVectorStore.searchSimilarity` (`OracleVectorStore.node.ts`,
lines 424-491) up to the `connection.execute` call: clamp `limit` into
`[1, 1000]` and `threshold` into `[0, 1]`, parse the search vector
(`parsed = none` models a `JSON.parse` throw), reject a non-array or
empty parse result and non-numeric elements, and otherwise produce the
bound query.  An `Except.error` is returned before any SQL is built or
executed — the `SearchQuery` only exists on the success path. -/
def searchSimilarity (collection : String) (parsed : Option JsonVal)
    (limit threshold : ℚ) (metric : String) : Except String SearchQuery :=
  match parsed with
  | none => .error "Search vector deve ser um JSON array válido"
  | some (.arr xs) =>
    if xs.isEmpty then
      .error "Search vector deve ser um array de números não vazio"
    else
      match jsonNums xs with
      | some qs =>
          .ok { collection := collection, metric := metric, vec := qs
                threshold := clampThreshold threshold
                fetchLimit := clampLimit limit }
      | none => .error "Search vector deve conter apenas números válidos"
  | some _ => .error "Search vector deve ser um array de números não vazio"

/-- C10: whenever the similarity search reaches the SQL execution, the
bound result-count limit is `Math.max(1, Math.min(1000, limit))` and so
lies in `[1, 1000]`, and the bound similarity threshold lies in
`[0, 1]`; and the operation fails with a validation error — before any
SQL is executed — exactly unless the search vector parses to a
non-empty JSON array all of whose elements are numbers. -/
theorem c10_search_similarity_validation (collection : String)
    (parsed : Option JsonVal) (limit threshold : ℚ) (metric : String) :
    (∀ q, searchSimilarity collection parsed limit threshold metric = .ok q →
      q.fetchLimit = clampLimit limit ∧
      1 ≤ q.fetchLimit ∧ q.fetchLimit ≤ 1000 ∧
      q.threshold = clampThreshold threshold ∧
      0 ≤ q.threshold ∧ q.threshold ≤ 1) ∧
    ((∃ q, searchSimilarity collection parsed limit threshold metric = .ok q) ↔
      ∃ xs qs, parsed = some (.arr xs) ∧ xs ≠ [] ∧ jsonNums xs = some qs) := by
  have hlim_lo : 1 ≤ clampLimit limit := le_max_left 1 _
  have hlim_hi : clampLimit limit ≤ 1000 :=
    max_le (by norm_num) (min_le_left 1000 limit)
  have hth_lo : 0 ≤ clampThreshold threshold := le_max_left 0 _
  have hth_hi : clampThreshold threshold ≤ 1 :=
    max_le (by norm_num) (min_le_left 1 threshold)
  constructor
  · intro q hq
    have hshape : q.fetchLimit = clampLimit limit ∧
        q.threshold = clampThreshold threshold := by
      cases parsed with
      | none => simp [searchSimilarity] at hq
      | some v =>
        cases v with
        | arr xs =>
          simp only [searchSimilarity] at hq
          by_cases hemp : xs.isEmpty = true
          · rw [if_pos hemp] at hq
            simp at hq
          · rw [if_neg hemp] at hq
            cases hn : jsonNums xs with
            | some qs =>
              rw [hn] at hq
              cases hq
              exact ⟨rfl, rfl⟩
            | none =>
              rw [hn] at hq
              simp at hq
        | null => simp [searchSimilarity] at hq
        | bool b => simp [searchSimilarity] at hq
        | num n => simp [searchSimilarity] at hq
        | str s => simp [searchSimilarity] at hq
    refine ⟨hshape.1, ?_, ?_, hshape.2, ?_, ?_⟩
    · rw [hshape.1]; exact hlim_lo
    · rw [hshape.1]; exact hlim_hi
    · rw [hshape.2]; exact hth_lo
    · rw [hshape.2]; exact hth_hi
  · constructor
    · rintro ⟨q, hq⟩
      cases parsed with
      | none => simp [searchSimilarity] at hq
      | some v =>
        cases v with
        | arr xs =>
          simp only [searchSimilarity] at hq
          by_cases hemp : xs.isEmpty = true
          · rw [if_pos hemp] at hq
            simp at hq
          · rw [if_neg hemp] at hq
            cases hn : jsonNums xs with
            | some qs =>
              exact ⟨xs, qs, rfl, by simpa using hemp, hn⟩
            | none =>
              rw [hn] at hq
              simp at hq
        | null => simp [searchSimilarity] at hq
        | bool b => simp [searchSimilarity] at hq
        | num n => simp [searchSimilarity] at hq
        | str s => simp [searchSimilarity] at hq
    · rintro ⟨xs, qs, hp, hne, hn⟩
      subst hp
      refine ⟨{ collection := collection, metric := metric, vec := qs
                threshold := clampThreshold threshold
                fetchLimit := clampLimit limit }, ?_⟩
      simp only [searchSimilarity]
      rw [if_neg (by simpa using hne), hn]

/-- C10 (witness): the theorem applied to the parsed vector
`[0.1, 0.2, 0.3]` with an oversized limit of 5000 and a threshold of 0.7
under the COSINE metric: the bound limit is clamped to 1000, the
threshold stays 0.7. -/
theorem c10_search_similarity_validation_witness :
    searchSimilarity "vector_documents"
        (some (.arr [.num (1/10), .num (2/10), .num (3/10)])) 5000 (7/10)
        "COSINE" =
      .ok { collection := "vector_documents", metric := "COSINE"
            vec := [1/10, 2/10, 3/10], threshold := 7/10
            fetchLimit := 1000 } ∧
    (1 : ℚ) ≤ 1000 ∧ (1000 : ℚ) ≤ 1000 ∧
    (0 : ℚ) ≤ 7/10 ∧ (7/10 : ℚ) ≤ 1 := by
  have hrun : searchSimilarity "vector_documents"
      (some (.arr [.num (1/10), .num (2/10), .num (3/10)])) 5000 (7/10)
      "COSINE" =
      .ok { collection := "vector_documents", metric := "COSINE"
            vec := [1/10, 2/10, 3/10], threshold := clampThreshold (7/10)
            fetchLimit := clampLimit 5000 } := by
    simp only [searchSimilarity]
    rw [if_neg (by decide)]
    rfl
  have h := (c10_search_similarity_validation "vector_documents"
    (some (.arr [.num (1/10), .num (2/10), .num (3/10)])) 5000 (7/10)
    "COSINE").1 _ hrun
  have hcl : clampLimit 5000 = 1000 := by
    unfold clampLimit
    norm_num
  have hct : clampThreshold (7/10) = 7/10 := by
    unfold clampThreshold
    rw [min_eq_right (by norm_num), max_eq_right (by norm_num)]
  refine ⟨?_, by norm_num, le_refl _, by norm_num, by norm_num⟩
  rw [hrun, hcl, hct]
